import Mathlib

/-!
Shallow embedding of the jitsi-whisper-bridge session engine
(`jitsi-whisper-bridge.py`): the binary frame parser, the audio chunk
accumulator, the silence/hallucination gates of the transcription client,
the JWT gate, and the per-connection protocol handler, together with
theorems about the behaviours the design document ascribes to them.

Bytes are modelled as `Nat` (values 0..255), Python strings as Lean
`String` / `List Char`, Python float arithmetic as exact `ℚ`/`ℝ`
arithmetic, and the two external collaborators (the whisper HTTP backend
and the JWT cryptographic verifier) as oracle functions supplied by the
caller, so that "no backend call is made" is observable as a call count.
-/

/-- Python `str.isspace` restricted to the ASCII whitespace characters
(sufficient for the texts handled here). -/
def isPySpace (c : Char) : Bool :=
  c = ' ' ∨ c = '\t' ∨ c = '\n' ∨ c = '\x0d' ∨ c = '\x0b' ∨ c = '\x0c'

/-- Python `str.strip()` on a character list: drop whitespace at both ends. -/
def pyStripChars (l : List Char) : List Char :=
  ((l.dropWhile isPySpace).reverse.dropWhile isPySpace).reverse

/-- Python `str.strip()` on a `String`. -/
def pyStripS (s : String) : String :=
  String.mk (pyStripChars s.data)

/-- Python `str.lower()` (ASCII case folding) producing the character list. -/
def pyLower (s : String) : List Char :=
  s.data.map Char.toLower

/-- Python `s.startswith(pre)`: the first `len(pre)` characters of `s`
equal `pre`. -/
def pyStartsWith (s pre : String) : Bool :=
  s.data.take pre.data.length == pre.data

/-- Python `str.rstrip('\x00 ')`: drop trailing NUL bytes and spaces,
as applied to the decoded 60-byte frame header. -/
def pyRstripNulSpace (l : List Char) : List Char :=
  (l.reverse.dropWhile (fun c => c = '\x00' ∨ c = ' ')).reverse

/-- Python `str.split(sep)` for a single-character separator: splits on every
occurrence, keeping empty fields; the result is always nonempty. -/
def pySplitOn (sep : Char) : List Char → List (List Char)
  | [] => [[]]
  | c :: rest =>
    let r := pySplitOn sep rest
    if c = sep then [] :: r
    else
      match r with
      | [] => [[c]]
      | g :: gs => (c :: g) :: gs

/-- True iff the byte is a UTF-8 continuation byte (0x80–0xBF). -/
def utf8Cont (b : Nat) : Bool := 0x80 ≤ b && b ≤ 0xBF

/-- Worker for `utf8DecodeIgnore`; the fuel argument bounds recursion depth
(each step consumes at least one input byte). Implements RFC 3629 sequence
validation; on a malformed sequence the offending bytes are skipped, which is
Python's `errors='ignore'` decoding policy. -/
def utf8DecodeIgnoreGo : Nat → List Nat → List Char
  | 0, _ => []
  | _ + 1, [] => []
  | fuel + 1, b :: rest =>
    if b ≤ 0x7F then
      Char.ofNat b :: utf8DecodeIgnoreGo fuel rest
    else if 0xC2 ≤ b ∧ b ≤ 0xDF then
      match rest with
      | [] => []
      | c1 :: rest1 =>
        if utf8Cont c1 then
          Char.ofNat ((b - 0xC0) * 0x40 + (c1 - 0x80)) :: utf8DecodeIgnoreGo fuel rest1
        else utf8DecodeIgnoreGo fuel rest
    else if 0xE0 ≤ b ∧ b ≤ 0xEF then
      let lo1 := if b = 0xE0 then 0xA0 else 0x80
      let hi1 := if b = 0xED then 0x9F else 0xBF
      match rest with
      | [] => []
      | [c1] => if lo1 ≤ c1 ∧ c1 ≤ hi1 then [] else utf8DecodeIgnoreGo fuel [c1]
      | c1 :: c2 :: rest2 =>
        if lo1 ≤ c1 ∧ c1 ≤ hi1 then
          if utf8Cont c2 then
            Char.ofNat ((b - 0xE0) * 0x1000 + (c1 - 0x80) * 0x40 + (c2 - 0x80))
              :: utf8DecodeIgnoreGo fuel rest2
          else utf8DecodeIgnoreGo fuel (c2 :: rest2)
        else utf8DecodeIgnoreGo fuel (c1 :: c2 :: rest2)
    else if 0xF0 ≤ b ∧ b ≤ 0xF4 then
      let lo1 := if b = 0xF0 then 0x90 else 0x80
      let hi1 := if b = 0xF4 then 0x8F else 0xBF
      match rest with
      | [] => []
      | [c1] => if lo1 ≤ c1 ∧ c1 ≤ hi1 then [] else utf8DecodeIgnoreGo fuel [c1]
      | [c1, c2] =>
        if lo1 ≤ c1 ∧ c1 ≤ hi1 then
          if utf8Cont c2 then [] else utf8DecodeIgnoreGo fuel [c2]
        else utf8DecodeIgnoreGo fuel [c1, c2]
      | c1 :: c2 :: c3 :: rest3 =>
        if lo1 ≤ c1 ∧ c1 ≤ hi1 then
          if utf8Cont c2 then
            if utf8Cont c3 then
              Char.ofNat ((b - 0xF0) * 0x40000 + (c1 - 0x80) * 0x1000
                  + (c2 - 0x80) * 0x40 + (c3 - 0x80))
                :: utf8DecodeIgnoreGo fuel rest3
            else utf8DecodeIgnoreGo fuel (c3 :: rest3)
          else utf8DecodeIgnoreGo fuel (c2 :: c3 :: rest3)
        else utf8DecodeIgnoreGo fuel (c1 :: c2 :: c3 :: rest3)
    else
      utf8DecodeIgnoreGo fuel rest

/-- Python `bytes.decode('utf-8', errors='ignore')`: total decoding that
drops malformed byte sequences instead of raising. -/
def utf8DecodeIgnore (l : List Nat) : List Char :=
  utf8DecodeIgnoreGo l.length l

/-- Reinterpret an unsigned 16-bit value as a signed 16-bit integer,
as `struct.unpack` with format `h` does. -/
def toSigned16 (v : Nat) : Int :=
  if v < 0x8000 then (v : Int) else (v : Int) - 0x10000

/-- Decode a byte sequence into little-endian signed 16-bit samples
(`struct.unpack(f'{n}h', ...)`); a trailing odd byte yields no sample. -/
def decodeSamples : List Nat → List Int
  | lo :: hi :: rest => toSigned16 (lo + 256 * hi) :: decodeSamples rest
  | _ => []

/-- Python `language.split('-')[0]`: strip a region subtag (`en-US` → `en`). -/
def regionStrip (s : String) : String :=
  String.mk ((pySplitOn '-' s.data).getD 0 [])

/-- AudioBuffer (class `AudioBuffer`): per-session accumulator of raw PCM
bytes together with the participant/language metadata the handler stores on
it.  `client_id` starts as `None` and `language` as `"en"`. -/
structure AudioBuffer where
  sample_rate : Nat
  buffer : List Nat
  client_id : Option String
  language : String
deriving Repr, DecidableEq

/-- AudioBuffer.add_chunk: extend the byte buffer with the new audio data. -/
def AudioBuffer.add_chunk (b : AudioBuffer) (audio_data : List Nat) : AudioBuffer :=
  { b with buffer := b.buffer ++ audio_data }

/-- AudioBuffer.clear: reset the byte buffer, keeping metadata. -/
def AudioBuffer.clear (b : AudioBuffer) : AudioBuffer :=
  { b with buffer := [] }

/-- AudioBuffer.get_duration_ms: `(len(buffer)//2 / sample_rate) * 1000`,
the float division modelled exactly in `ℚ`. -/
def AudioBuffer.get_duration_ms (b : AudioBuffer) : ℚ :=
  ((b.buffer.length / 2 : Nat) : ℚ) / (b.sample_rate : ℚ) * 1000

/-- AudioBuffer.get_rms_energy: root-mean-square of the samples obtained by
`struct.unpack(f'{len//2}h', buffer)`.  Returns 0 when fewer than 2 bytes are
buffered, and 0 on the `struct.error` raised for an odd byte count (the
`except` clause); float arithmetic is modelled exactly in `ℝ`. -/
noncomputable def AudioBuffer.get_rms_energy (b : AudioBuffer) : ℝ :=
  if b.buffer.length < 2 then 0
  else if b.buffer.length % 2 ≠ 0 then 0
  else
    let samples := decodeSamples b.buffer
    Real.sqrt ((((samples.map fun s => s * s).sum : Int) : ℝ) / (samples.length : ℝ))

/-- AudioBuffer.to_wav: `None` on an empty buffer, otherwise the WAV upload
body.  The 44 fixed RIFF container bytes wrapped around the PCM payload are
not modelled (no claim concerns them); the value is the payload itself. -/
def AudioBuffer.to_wav (b : AudioBuffer) : Option (List Nat) :=
  if b.buffer.length = 0 then none else some b.buffer

/-- HallucinationFilter (class `HallucinationFilter`): the compiled pattern
table maps a language code to its compiled patterns.  A compiled regex is
modelled as an abstract matcher `List Char → Bool` applied to the
case-folded, trimmed text; `re.IGNORECASE` and the `re.match` start anchor
are properties of the matcher, which is external to this core (`re` module). -/
structure HallucinationFilter where
  enabled : Bool
  min_length : Nat
  compiled_patterns : List (String × List (List Char → Bool))

/-- Lookup of `compiled_patterns[lang]` (`lang_code in self.compiled_patterns`). -/
def HallucinationFilter.patternsFor (f : HallucinationFilter) (lang : String) :
    Option (List (List Char → Bool)) :=
  (f.compiled_patterns.find? (fun p => p.1 == lang)).map (fun p => p.2)

/-- HallucinationFilter.is_hallucination, line for line from the source:
disabled ⇒ false; empty/whitespace-only ⇒ true; short (after lower+strip)
⇒ true; else match the language's patterns (region stripped) and then the
`common` patterns against the lowered, stripped text. -/
def HallucinationFilter.is_hallucination (f : HallucinationFilter)
    (text : String) (language : String) : Bool :=
  if f.enabled = false then false
  else if text = "" ∨ pyStripChars text.data = [] then true
  else
    let text_lower := pyStripChars (pyLower text)
    if text_lower.length < f.min_length then true
    else
      let lang_code := regionStrip language
      let langHit :=
        match f.patternsFor lang_code with
        | some pats => pats.any fun p => p text_lower
        | none => false
      if langHit then true
      else
        match f.patternsFor "common" with
        | some pats => pats.any fun p => p text_lower
        | none => false

/-- Request the whisper client sends to the backend (`requests.post`): the
WAV body and the optional `language` form field (`data['language']`). -/
structure BackendRequest where
  wav_bytes : List Nat
  language_field : Option String
deriving Repr, DecidableEq

/-- Outcome of one backend HTTP call, as observed inside `sync_request`:
a 200 response with a parsed JSON body (modelled as a string-valued record),
a non-2xx status, or a raised exception (connection failure, timeout,
or a body that fails to parse as JSON). -/
inductive BackendOutcome where
  | success (body : List (String × String))
  | httpError (status : Nat)
  | exn
deriving Repr, DecidableEq

/-- WhisperClient (class `WhisperClient`): configuration plus the
hallucination filter it owns. -/
structure WhisperClient where
  auto_detect_code : String
  default_language : String
  silence_threshold : ℚ
  filter : HallucinationFilter

/-- Lookup `result.get(key, dflt)` on the modelled JSON record. -/
def jsonGet (result : List (String × String)) (key : String) (dflt : String) : String :=
  (((result.find? (fun p => p.1 == key)).map (fun p => p.2)).getD dflt)

/-- WhisperClient.transcribe: the silence gate, WAV encoding, language
resolution, the backend call through `sync_request`, and result filtering.
The external HTTP endpoint is the `backend` oracle; the second component of
the result counts how many backend calls were issued (0 or 1), so that "no
backend call is made" is an observable fact.  All failure paths return
`none`, mirroring the `try`/`except` structure of the source. -/
noncomputable def WhisperClient.transcribe (w : WhisperClient)
    (backend : BackendRequest → BackendOutcome) (audio_buffer : AudioBuffer) :
    Option String × Nat :=
  if audio_buffer.get_rms_energy < (w.silence_threshold : ℝ) then (none, 0)
  else
    match audio_buffer.to_wav with
    | none => (none, 0)
    | some wav_bytes =>
      let language :=
        if audio_buffer.language = "" then w.default_language
        else regionStrip audio_buffer.language
      let language_param : Option String :=
        if language = w.auto_detect_code then none else some language
      let langField : Option String :=
        match language_param with
        | some l => if l = "" then none else some l
        | none => none
      let sync_result : Option (List (String × String)) :=
        match backend ⟨wav_bytes, langField⟩ with
        | .success body => some body
        | .httpError _ => none
        | .exn => none
      match sync_result with
      | some result =>
        if result ≠ [] then
          let text := pyStripS (jsonGet result "text" "")
          let detected_lang := jsonGet result "language" language
          if w.filter.is_hallucination text detected_lang then (none, 1)
          else (some text, 1)
        else (none, 1)
      | none => (none, 1)

/-- Claims record returned by `jwt.decode`, modelled as a string-valued
record (only its truthiness and the sentinel `iss` claim matter here). -/
abbrev JwtPayload : Type := List (String × String)

/-- Dispositions of the external `jwt.decode` capability, one per `except`
clause of `JWTAuthenticator.verify`. -/
inductive JwtError where
  | expiredSignature
  | invalidAudience
  | invalidToken
  | otherFailure
deriving Repr, DecidableEq

/-- JWTAuthenticator (class `JWTAuthenticator`): the enablement flag and the
expected audience.  The pre-loaded public key lives inside the `decodeJwt`
oracle (the external cryptographic capability). -/
structure JWTAuthenticator where
  enabled : Bool
  audience : String
deriving Repr, DecidableEq

/-- JWTAuthenticator.verify: disabled ⇒ the sentinel payload
`{"iss": "no-auth-mode"}` with no token inspection; enabled ⇒ delegate to the
external `jwt.decode` (the `decodeJwt` oracle, applied to the token and the
configured audience); every `except` clause returns `None`. -/
def JWTAuthenticator.verify (auth : JWTAuthenticator)
    (decodeJwt : String → String → Except JwtError JwtPayload)
    (token : String) : Option JwtPayload :=
  if auth.enabled = false then some [("iss", "no-auth-mode")]
  else
    match decodeJwt token auth.audience with
    | .ok payload => some payload
    | .error _ => none

/-- Messages arriving on the WebSocket: binary frames or text frames. -/
inductive WsMessage where
  | binary (bytes : List Nat)
  | text (s : String)

/-- Per-connection mutable state of `handle_client`. -/
structure ClientState where
  audio_buffer : AudioBuffer
  message_count : Nat
  transcript_count : Nat
  last_transcript : String
deriving Repr, DecidableEq

/-- Initial session state: `AudioBuffer(sample_rate)` plus zeroed counters
and an empty `last_transcript`. -/
def initState (sample_rate : Nat) : ClientState :=
  ⟨⟨sample_rate, [], none, "en"⟩, 0, 0, ""⟩

/-- JSON response sent back to the transcription client. -/
structure Response where
  type : String
  participant_id : Option String
  text : String
  variance : ℚ
deriving Repr, DecidableEq

/-- Header fields of a binary frame: decode the first 60 bytes as UTF-8 with
invalid bytes dropped, strip trailing NULs and spaces, split on `|`. -/
def parseHeaderParts (msg : List Nat) : List (List Char) :=
  pySplitOn '|' (pyRstripNulSpace (utf8DecodeIgnore (msg.take 60)))

/-- Header parsing and audio buffering for a binary frame of at least 60
bytes (source lines 438–459): if the header splits into at least two fields,
field 0 (stripped) becomes `client_id` and field 1 (stripped) becomes
`language`; the bytes after offset 60, when nonempty, are appended to the
buffer.  No operation in this block can raise (`decode` uses
`errors='ignore'`), so the `except ... continue` clause is unreachable. -/
def parseAndAppend (msg : List Nat) (s : ClientState) : ClientState :=
  let parts := parseHeaderParts msg
  let buf1 :=
    if 2 ≤ parts.length then
      { s.audio_buffer with
          client_id := some (String.mk (pyStripChars (parts.getD 0 []))),
          language := String.mk (pyStripChars (parts.getD 1 [])) }
    else s.audio_buffer
  let audio_data := msg.drop 60
  let buf2 := if 0 < audio_data.length then buf1.add_chunk audio_data else buf1
  { s with audio_buffer := buf2 }

/-- Drain step (source lines 463–490): given the transcription result,
build the `final` or `partial` JSON response, update `last_transcript` and
`transcript_count` on a final, and clear the audio buffer unconditionally.
`text.getD ""` collapses Python's two falsy cases (`None` and `""`). -/
def drainStep (text : Option String) (s : ClientState) : ClientState × Response :=
  if text.getD "" ≠ "" ∧ text.getD "" ≠ s.last_transcript then
    ({ s with
        transcript_count := s.transcript_count + 1,
        last_transcript := text.getD "",
        audio_buffer := s.audio_buffer.clear },
     ⟨"final", s.audio_buffer.client_id, text.getD "", 0⟩)
  else
    ({ s with audio_buffer := s.audio_buffer.clear },
     ⟨"partial", s.audio_buffer.client_id, "", 1⟩)

/-- Processing of one binary frame: frames shorter than 60 bytes are
ignored; otherwise parse-and-append, then drain exactly when the buffered
duration reaches the configured `chunk_duration_ms`.  The transcription
client is abstracted as the `tr` oracle (its internals are
`WhisperClient.transcribe`, verified separately). -/
def processBinary (chunk_duration_ms : ℚ) (tr : AudioBuffer → Option String)
    (msg : List Nat) (s : ClientState) : ClientState × Option Response :=
  if msg.length < 60 then (s, none)
  else if chunk_duration_ms ≤ (parseAndAppend msg s).audio_buffer.get_duration_ms then
    ((drainStep (tr (parseAndAppend msg s).audio_buffer) (parseAndAppend msg s)).1,
     some (drainStep (tr (parseAndAppend msg s).audio_buffer) (parseAndAppend msg s)).2)
  else (parseAndAppend msg s, none)

/-- Processing of one WebSocket message: `message_count` is incremented for
every message; binary frames go through `processBinary`; text frames are
logged only. -/
def processMessage (chunk_duration_ms : ℚ) (tr : AudioBuffer → Option String)
    (m : WsMessage) (s : ClientState) : ClientState × Option Response :=
  match m with
  | .binary b =>
    processBinary chunk_duration_ms tr b { s with message_count := s.message_count + 1 }
  | .text _ => ({ s with message_count := s.message_count + 1 }, none)

/-- Sequential processing of a message trace (the `async for` loop),
collecting the emitted responses in order. -/
def processTrace (chunk_duration_ms : ℚ) (tr : AudioBuffer → Option String) :
    List WsMessage → ClientState → ClientState × List Response
  | [], s => (s, [])
  | m :: ms, s =>
    let r := processMessage chunk_duration_ms tr m s
    let rest := processTrace chunk_duration_ms tr ms r.1
    (rest.1, r.2.toList ++ rest.2)

/-- Result of a whole session: either the connection was closed before any
message was consumed (`rejected`, carrying the close code and reason — 1008
is the WebSocket policy-violation status), or the message trace was
processed to completion. -/
inductive SessionResult where
  | rejected (code : Nat) (reason : String)
  | completed (final : ClientState) (responses : List Response)

/-- Streaming phase of `handle_client`: path validation, then the message
loop starting from a fresh session state. -/
def streamPhase (path : String) (sample_rate : Nat) (chunk_duration_ms : ℚ)
    (tr : AudioBuffer → Option String) (msgs : List WsMessage) : SessionResult :=
  if pyStartsWith path "/streaming-whisper/ws/" = false then
    .rejected 1008 "Invalid path"
  else
    .completed (processTrace chunk_duration_ms tr msgs (initState sample_rate)).1
      (processTrace chunk_duration_ms tr msgs (initState sample_rate)).2

/-- handle_client: the JWT gate (when enabled: `Bearer ` prefix check, token
extraction by `replace`/`strip`, verification, and Python-falsy payload
check), then path validation and the message loop.  `auth_header` is the
`Authorization` header value, defaulted to `""` when absent. -/
def handle_client (auth : JWTAuthenticator)
    (decodeJwt : String → String → Except JwtError JwtPayload)
    (auth_header : String) (path : String) (sample_rate : Nat)
    (chunk_duration_ms : ℚ) (tr : AudioBuffer → Option String)
    (msgs : List WsMessage) : SessionResult :=
  if auth.enabled then
    if pyStartsWith auth_header "Bearer " = false then
      .rejected 1008 "Unauthorized - Missing Bearer token"
    else
      match auth.verify decodeJwt (pyStripS (auth_header.replace "Bearer " "")) with
      | none => .rejected 1008 "Unauthorized - Invalid token"
      | some payload =>
        if payload = ([] : List (String × String)) then
          .rejected 1008 "Unauthorized - Invalid token"
        else streamPhase path sample_rate chunk_duration_ms tr msgs
  else streamPhase path sample_rate chunk_duration_ms tr msgs

/-- True iff processing the message can set the session's participant id:
a binary frame of at least 60 bytes whose header splits into at least two
fields. -/
def msgSetsId : WsMessage → Bool
  | .binary b => decide (60 ≤ b.length) && decide (2 ≤ (parseHeaderParts b).length)
  | .text _ => false

/-- Concrete filter instance: default enablement and minimum length, one
`en` pattern and one `common` pattern as concrete anchored matchers. -/
def filt0 : HallucinationFilter :=
  ⟨true, 3,
   [("en", [fun tl => tl == "thank you".data]),
    ("common", [fun tl => tl == "off".data])]⟩

/-- Concrete whisper client with the default configuration values. -/
def w0 : WhisperClient := ⟨"auto", "en", 50, filt0⟩

/-- Concrete all-zero (silent) audio buffer holding two zero samples. -/
def b0 : AudioBuffer := ⟨16000, [0, 0, 0, 0], none, "en"⟩

/-- Concrete buffer with fewer than one full sample. -/
def bShort : AudioBuffer := ⟨16000, [7], none, "en"⟩

/-- Concrete buffer with an odd byte count (a decode error in the source). -/
def bOdd : AudioBuffer := ⟨16000, [1, 2, 3], none, "en"⟩

/-- Backend oracle that always raises (connection failure / timeout). -/
def backendExn : BackendRequest → BackendOutcome := fun _ => .exn

/-- Transcription oracle that always accepts the text `"hello"`. -/
def trHello : AudioBuffer → Option String := fun _ => some "hello"

/-- JWT decode oracle that always fails verification. -/
def oracleErr : String → String → Except JwtError JwtPayload :=
  fun _ _ => .error .invalidToken

/-- Authenticator with authentication disabled. -/
def authOff : JWTAuthenticator := ⟨false, "whisper-service"⟩

/-- Authenticator with authentication enabled. -/
def authOn : JWTAuthenticator := ⟨true, "whisper-service"⟩

/-- Concrete binary frame whose 60-byte header contains no `|` separator
(60 times `A`) followed by two audio bytes. -/
def c1msg : List Nat := List.replicate 60 65 ++ [1, 2]

/-- Concrete binary frame with header `"alice|en-US"` NUL-padded to 60
bytes, followed by three audio bytes. -/
def c5msg : List Nat :=
  ("alice|en-US".data.map Char.toNat) ++ List.replicate 49 0 ++ [10, 20, 30]

/-- Concrete binary frame of 60 NUL header bytes plus four audio bytes
(two complete samples). -/
def c2msg : List Nat := List.replicate 64 0

/-- Concrete message trace in which no frame can set the participant id:
a text frame, a 59-byte binary frame, and a 62-byte frame without `|`. -/
def msgsC10 : List WsMessage :=
  [.text "ping", .binary (List.replicate 59 1), .binary c1msg]

/-! Helper lemmas about the frame parser. -/

theorem parseAndAppend_buffer (msg : List Nat) (s : ClientState) :
    (parseAndAppend msg s).audio_buffer.buffer = s.audio_buffer.buffer ++ msg.drop 60 := by
  unfold parseAndAppend AudioBuffer.add_chunk
  by_cases h0 : 60 < msg.length
  · by_cases h2 : 2 ≤ (parseHeaderParts msg).length <;> simp [h2, h0]
  · have hnil : msg.drop 60 = [] := List.drop_eq_nil_of_le (Nat.not_lt.mp h0)
    by_cases h2 : 2 ≤ (parseHeaderParts msg).length <;> simp [h2, h0, hnil]

theorem parseAndAppend_sample_rate (msg : List Nat) (s : ClientState) :
    (parseAndAppend msg s).audio_buffer.sample_rate = s.audio_buffer.sample_rate := by
  unfold parseAndAppend AudioBuffer.add_chunk
  by_cases h2 : 2 ≤ (parseHeaderParts msg).length <;>
    by_cases h0 : 60 < msg.length <;> simp [h2, h0]

theorem parseAndAppend_counters (msg : List Nat) (s : ClientState) :
    (parseAndAppend msg s).message_count = s.message_count ∧
    (parseAndAppend msg s).transcript_count = s.transcript_count ∧
    (parseAndAppend msg s).last_transcript = s.last_transcript := by
  unfold parseAndAppend
  by_cases h0 : 60 < msg.length <;> simp [h0]

/-- C1: a binary frame of at least 60 bytes whose header does not split into
at least two `|`-separated fields leaves `participantId` and `languageHint`
unchanged, yet the bytes after offset 60 are still appended to the audio
buffer under those previous values (the UTF-8 decode uses `errors='ignore'`
and cannot fail, so no header ever aborts the message). -/
theorem malformed_header_keeps_audio (msg : List Nat) (s : ClientState)
    (h60 : 60 ≤ msg.length) (hparts : (parseHeaderParts msg).length < 2) :
    (parseAndAppend msg s).audio_buffer.client_id = s.audio_buffer.client_id ∧
    (parseAndAppend msg s).audio_buffer.language = s.audio_buffer.language ∧
    (parseAndAppend msg s).audio_buffer.buffer = s.audio_buffer.buffer ++ msg.drop 60 := by
  have h2 : ¬ 2 ≤ (parseHeaderParts msg).length := Nat.not_le.mpr hparts
  refine ⟨?_, ?_, parseAndAppend_buffer msg s⟩ <;>
  · unfold parseAndAppend AudioBuffer.add_chunk
    by_cases h0 : 60 < msg.length <;> simp [h2, h0]

/-- Witness for C1 at the concrete frame `c1msg` (no `|` in the header)
from the fresh session state. -/
theorem malformed_header_keeps_audio_w :
    (parseAndAppend c1msg (initState 16000)).audio_buffer.client_id
        = (initState 16000).audio_buffer.client_id ∧
    (parseAndAppend c1msg (initState 16000)).audio_buffer.language
        = (initState 16000).audio_buffer.language ∧
    (parseAndAppend c1msg (initState 16000)).audio_buffer.buffer
        = (initState 16000).audio_buffer.buffer ++ c1msg.drop 60 :=
  malformed_header_keeps_audio c1msg (initState 16000) (by decide) (by decide)

/-- C5: a binary frame of 60+N bytes whose decoded, trimmed header splits
into at least two fields updates `participantId` to field 0 and
`languageHint` to field 1 (each stripped), and appends exactly the N bytes
after offset 60 to the audio buffer — once, and without the header bytes. -/
theorem header_update_appends_payload (msg : List Nat) (s : ClientState)
    (h60 : 60 ≤ msg.length) (hparts : 2 ≤ (parseHeaderParts msg).length) :
    (parseAndAppend msg s).audio_buffer.client_id
        = some (String.mk (pyStripChars ((parseHeaderParts msg).getD 0 []))) ∧
    (parseAndAppend msg s).audio_buffer.language
        = String.mk (pyStripChars ((parseHeaderParts msg).getD 1 [])) ∧
    (parseAndAppend msg s).audio_buffer.buffer = s.audio_buffer.buffer ++ msg.drop 60 ∧
    (msg.drop 60).length = msg.length - 60 := by
  refine ⟨?_, ?_, parseAndAppend_buffer msg s, List.length_drop 60 msg⟩ <;>
  · unfold parseAndAppend AudioBuffer.add_chunk
    by_cases h0 : 60 < msg.length <;> simp [hparts, h0]

/-- Witness for C5 at the concrete frame `c5msg` with header
`"alice|en-US"` padded with NULs and exactly three audio bytes. -/
theorem header_update_appends_payload_w :
    (parseAndAppend c5msg (initState 16000)).audio_buffer.client_id = some "alice" ∧
    (parseAndAppend c5msg (initState 16000)).audio_buffer.language = "en-US" ∧
    (parseAndAppend c5msg (initState 16000)).audio_buffer.buffer = [10, 20, 30] := by
  have h := header_update_appends_payload c5msg (initState 16000) (by decide) (by decide)
  exact ⟨h.1.trans (by decide), h.2.1.trans (by decide), h.2.2.1.trans (by decide)⟩

/-- C2: for a binary frame of at least 60 bytes, a drain happens exactly
when the buffered duration — the number of complete 16-bit samples divided
by the sample rate, times 1000 — reaches or exceeds `chunk_duration_ms`
after the append.  A buffer landing exactly on the threshold drains (once:
at most one response is emitted per frame by construction), and a buffer
short of the threshold (for instance by one sample) does not drain. -/
theorem drain_exactly_at_threshold (chunk_duration_ms : ℚ)
    (tr : AudioBuffer → Option String) (msg : List Nat) (s : ClientState)
    (h60 : ¬ msg.length < 60) (hsr : 0 < s.audio_buffer.sample_rate) :
    (((processBinary chunk_duration_ms tr msg s).2.isSome = true) ↔
      chunk_duration_ms ≤
        (((s.audio_buffer.buffer.length + (msg.length - 60)) / 2 : Nat) : ℚ)
          / (s.audio_buffer.sample_rate : ℚ) * 1000) ∧
    ((((s.audio_buffer.buffer.length + (msg.length - 60)) / 2 : Nat) : ℚ)
          / (s.audio_buffer.sample_rate : ℚ) * 1000 = chunk_duration_ms →
      (processBinary chunk_duration_ms tr msg s).2.isSome = true) ∧
    ((((s.audio_buffer.buffer.length + (msg.length - 60)) / 2 : Nat) : ℚ)
          / (s.audio_buffer.sample_rate : ℚ) * 1000 < chunk_duration_ms →
      (processBinary chunk_duration_ms tr msg s).2 = none) := by
  have hdur : (parseAndAppend msg s).audio_buffer.get_duration_ms
      = (((s.audio_buffer.buffer.length + (msg.length - 60)) / 2 : Nat) : ℚ)
          / (s.audio_buffer.sample_rate : ℚ) * 1000 := by
    unfold AudioBuffer.get_duration_ms
    rw [parseAndAppend_buffer, parseAndAppend_sample_rate]
    simp [List.length_append]
  have key : (processBinary chunk_duration_ms tr msg s).2.isSome = true ↔
      chunk_duration_ms ≤ (parseAndAppend msg s).audio_buffer.get_duration_ms := by
    unfold processBinary
    rw [if_neg h60]
    by_cases hc : chunk_duration_ms ≤ (parseAndAppend msg s).audio_buffer.get_duration_ms <;>
      simp [hc]
  have keyn : ¬ chunk_duration_ms ≤ (parseAndAppend msg s).audio_buffer.get_duration_ms →
      (processBinary chunk_duration_ms tr msg s).2 = none := by
    intro hc
    unfold processBinary
    rw [if_neg h60]
    simp [hc]
  rw [hdur] at key keyn
  exact ⟨key, fun he => key.mpr (le_of_eq he.symm), fun hlt => keyn (not_le.mpr hlt)⟩

/-- Witness for C2: with sample rate 2 and threshold 1000 ms, the frame
`c2msg` (four audio bytes, hence two complete samples, hence exactly
1000 ms) triggers a drain on that frame. -/
theorem drain_exactly_at_threshold_w :
    (processBinary 1000 trHello c2msg (initState 2)).2.isSome = true :=
  (drain_exactly_at_threshold 1000 trHello c2msg (initState 2)
      (by decide) (by decide)).2.1 (by norm_num [initState, c2msg])

/-- C3: when a drain produces text `t` that is nonempty and differs from
`lastAcceptedText`, a `final` response carrying `t` (variance 0) is emitted
and `last_transcript` becomes `t`; an immediately following drain producing
the same `t` emits a `partial` response with empty text and variance 1 —
never two `final` responses in a row with identical text. -/
theorem dedup_consecutive_drains (s : ClientState) (t : String)
    (h1 : t ≠ "") (h2 : t ≠ s.last_transcript) :
    (drainStep (some t) s).2 = ⟨"final", s.audio_buffer.client_id, t, 0⟩ ∧
    (drainStep (some t) s).1.last_transcript = t ∧
    (drainStep (some t) ((drainStep (some t) s).1)).2
      = ⟨"partial", s.audio_buffer.client_id, "", 1⟩ := by
  unfold drainStep AudioBuffer.clear
  simp [h1, h2]

/-- Witness for C3 at the fresh session state with accepted text `"hello"`
produced by two consecutive drains. -/
theorem dedup_consecutive_drains_w :
    (drainStep (some "hello") (initState 16000)).2
      = ⟨"final", none, "hello", 0⟩ ∧
    (drainStep (some "hello") (initState 16000)).1.last_transcript = "hello" ∧
    (drainStep (some "hello") ((drainStep (some "hello") (initState 16000)).1)).2
      = ⟨"partial", none, "", 1⟩ :=
  dedup_consecutive_drains (initState 16000) "hello" (by decide) (by decide)

/-! Helper lemmas about the silent buffer `b0` and sample decoding. -/

theorem rms_b0 : b0.get_rms_energy = 0 := by
  unfold AudioBuffer.get_rms_energy b0
  norm_num [decodeSamples, toSigned16]

/-- C4: a chunk whose RMS energy is below the configured silence threshold
makes `transcribe` return `none` with zero backend calls; since `transcribe`
leaves the buffer untouched (it is a function of the buffer), a second call
on the same silent chunk again yields `none` and the two calls together
issue zero backend requests. -/
theorem silence_gate_skips_backend (w : WhisperClient)
    (backend : BackendRequest → BackendOutcome) (b : AudioBuffer)
    (h : b.get_rms_energy < (w.silence_threshold : ℝ)) :
    w.transcribe backend b = (none, 0) ∧
    (w.transcribe backend b).1 = none ∧ (w.transcribe backend b).1 = none ∧
    (w.transcribe backend b).2 + (w.transcribe backend b).2 = 0 := by
  have hmain : w.transcribe backend b = (none, 0) := by
    unfold WhisperClient.transcribe
    rw [if_pos h]
  exact ⟨hmain, by rw [hmain], by rw [hmain], by rw [hmain]; rfl⟩

/-- Witness for C4: the all-zero two-sample buffer `b0` under the default
positive threshold 50 is gated as silence. -/
theorem silence_gate_skips_backend_w :
    w0.transcribe backendExn b0 = (none, 0) :=
  (silence_gate_skips_backend w0 backendExn b0
      (by rw [rms_b0]; norm_num [w0])).1

/-- C7: when every backend call fails (non-2xx status, connection failure,
timeout, or malformed payload — the `httpError` and `exn` outcomes),
`transcribe` returns `none` rather than raising, and the session handler's
drain step on that result emits a `partial` heartbeat response for any
session state, so the session survives. -/
theorem backend_failure_degrades (w : WhisperClient)
    (backend : BackendRequest → BackendOutcome) (b : AudioBuffer)
    (hfail : ∀ (req : BackendRequest) (body : List (String × String)),
        backend req ≠ BackendOutcome.success body) :
    (w.transcribe backend b).1 = none ∧
    ∀ s : ClientState,
      (drainStep (w.transcribe backend b).1 s).2
        = ⟨"partial", s.audio_buffer.client_id, "", 1⟩ := by
  have hnone : ∀ req : BackendRequest,
      (match backend req with
        | BackendOutcome.success body => some body
        | BackendOutcome.httpError _ => none
        | BackendOutcome.exn => none) = (none : Option (List (String × String))) := by
    intro req
    rcases hb : backend req with body | st
    · exact absurd hb (hfail req body)
    · rfl
    · rfl
  have h1 : (w.transcribe backend b).1 = none := by
    unfold WhisperClient.transcribe
    by_cases hs : b.get_rms_energy < (w.silence_threshold : ℝ)
    · rw [if_pos hs]
    · rw [if_neg hs]
      cases hw : b.to_wav
      · rfl
      · simp only [hnone]
  refine ⟨h1, fun s => ?_⟩
  rw [h1]
  simp [drainStep]

/-- Witness for C7: the always-raising backend oracle on the (non-silent
irrelevant) buffer `bOdd` yields `none` from `transcribe`. -/
theorem backend_failure_degrades_w :
    (w0.transcribe backendExn bOdd).1 = none :=
  (backend_failure_degrades w0 backendExn bOdd
      (by intro req body hc; simp [backendExn] at hc)).1

theorem decodeSamples_length (l : List Nat) :
    (decodeSamples l).length = l.length / 2 := by
  induction l using decodeSamples.induct with
  | case1 lo hi rest ih =>
    simp only [decodeSamples, List.length_cons, ih]
    omega
  | case2 l h =>
    rcases l with _ | ⟨a, _ | ⟨b, rest⟩⟩
    · rfl
    · simp [decodeSamples]
    · exact (h a b rest rfl).elim

theorem sumsq_nonneg (samples : List Int) :
    0 ≤ ((samples.map fun s => s * s).sum : Int) := by
  refine List.sum_nonneg ?_
  intro x hx
  obtain ⟨s, _, rfl⟩ := List.mem_map.mp hx
  exact mul_self_nonneg s

/-- C9: `get_rms_energy` is a total function that never raises: it is
nonnegative, returns 0 when fewer than 2 bytes (one full sample) are
buffered, returns 0 on the decode error an odd byte count provokes, and on
a well-formed buffer equals the root-mean-square of the decoded
little-endian signed 16-bit samples (its square times the sample count is
the sum of the squared samples). -/
theorem rms_energy_total (b : AudioBuffer) :
    0 ≤ b.get_rms_energy ∧
    (b.buffer.length < 2 → b.get_rms_energy = 0) ∧
    (b.buffer.length % 2 = 1 → b.get_rms_energy = 0) ∧
    (2 ≤ b.buffer.length → b.buffer.length % 2 = 0 →
      b.get_rms_energy
          = Real.sqrt
              (((((decodeSamples b.buffer).map fun s => s * s).sum : Int) : ℝ)
                / ((decodeSamples b.buffer).length : ℝ)) ∧
      b.get_rms_energy ^ 2 * ((decodeSamples b.buffer).length : ℝ)
          = ((((decodeSamples b.buffer).map fun s => s * s).sum : Int) : ℝ)) := by
  refine ⟨?_, ?_, ?_, ?_⟩
  · unfold AudioBuffer.get_rms_energy
    by_cases h1 : b.buffer.length < 2
    · rw [if_pos h1]
    · rw [if_neg h1]
      by_cases h2 : b.buffer.length % 2 ≠ 0
      · rw [if_pos h2]
      · rw [if_neg h2]
        exact Real.sqrt_nonneg _
  · intro h1
    unfold AudioBuffer.get_rms_energy
    rw [if_pos h1]
  · intro hodd
    unfold AudioBuffer.get_rms_energy
    by_cases h1 : b.buffer.length < 2
    · rw [if_pos h1]
    · rw [if_neg h1, if_pos (by omega)]
  · intro h2 heven
    have hval : b.get_rms_energy
        = Real.sqrt
            (((((decodeSamples b.buffer).map fun s => s * s).sum : Int) : ℝ)
              / ((decodeSamples b.buffer).length : ℝ)) := by
      unfold AudioBuffer.get_rms_energy
      rw [if_neg (by omega), if_neg (by omega)]
    refine ⟨hval, ?_⟩
    have hne : ((decodeSamples b.buffer).length : ℝ) ≠ 0 := by
      rw [decodeSamples_length]
      exact Nat.cast_ne_zero.mpr (by omega)
    have harg : 0 ≤ ((((decodeSamples b.buffer).map fun s => s * s).sum : Int) : ℝ)
        / ((decodeSamples b.buffer).length : ℝ) := by
      apply div_nonneg
      · exact_mod_cast sumsq_nonneg (decodeSamples b.buffer)
      · positivity
    rw [hval, Real.sq_sqrt harg, div_mul_cancel₀ _ hne]

/-- Witness for C9: a one-byte buffer (fewer than one sample) and a
three-byte buffer (odd count, a decode error) both evaluate to 0. -/
theorem rms_energy_total_w :
    bShort.get_rms_energy = 0 ∧ bOdd.get_rms_energy = 0 :=
  ⟨(rms_energy_total bShort).2.1 (by decide),
   (rms_energy_total bOdd).2.2.1 (by decide)⟩

/-- C6: `is_hallucination` returns `true` iff the filter is enabled and the
text is empty or whitespace-only, or the trimmed case-folded text is shorter
than the configured minimum length, or the case-folded trimmed text matches
a pattern registered for the region-stripped language code or a pattern in
the `common` set (each pattern is an anchored case-insensitive matcher);
a disabled filter returns `false` for every input, including empty text. -/
theorem is_hallucination_iff (f : HallucinationFilter) (text language : String) :
    f.is_hallucination text language = true ↔
      f.enabled = true ∧
        (pyStripChars text.data = [] ∨
         (pyStripChars (pyLower text)).length < f.min_length ∨
         (∃ p ∈ (f.patternsFor (regionStrip language)).getD [],
            p (pyStripChars (pyLower text)) = true) ∨
         (∃ p ∈ (f.patternsFor "common").getD [],
            p (pyStripChars (pyLower text)) = true)) := by
  have hany : ∀ (o : Option (List (List Char → Bool))) (tl : List Char),
      (match o with
        | some pats => pats.any fun p => p tl
        | none => false)
        = ((o.getD []).any fun p => p tl) := by
    intro o tl
    cases o <;> simp
  unfold HallucinationFilter.is_hallucination
  by_cases he : f.enabled = false
  · simp [he]
  · have he' : f.enabled = true := by revert he; cases f.enabled <;> simp
    by_cases hem : text = "" ∨ pyStripChars text.data = []
    · have hstr : pyStripChars text.data = [] := by
        rcases hem with h | h
        · rw [h]; rfl
        · exact h
      simp [he', hem, hstr]
    · have hne : ¬ pyStripChars text.data = [] := by
        intro hc
        exact hem (Or.inr hc)
      by_cases hlen : (pyStripChars (pyLower text)).length < f.min_length
      · simp [he', hem, hlen]
      · rw [if_neg (by simp [he']), if_neg hem, if_neg hlen]
        simp only [hany]
        cases hcl : ((f.patternsFor (regionStrip language)).getD []).any
            (fun p => p (pyStripChars (pyLower text)))
        · simp [hcl, he', hne, hlen, List.any_eq_true]
          intro x hx hpx
          have hcontr : (((f.patternsFor (regionStrip language)).getD []).any
              fun p => p (pyStripChars (pyLower text))) = true :=
            List.any_eq_true.mpr ⟨x, hx, hpx⟩
          rw [hcl] at hcontr
          cases hcontr
        · simp [hcl, he', hne, hlen]
          exact Or.inl (List.any_eq_true.mp hcl)

/-- Witness for C6 (no hypotheses in the statement; concrete check of both
directions on the `filt0` table): `"Thank you!"` is not filtered because no
matcher fires on it, while the raw matched text is. -/
theorem is_hallucination_iff_w :
    filt0.is_hallucination "thank you" "en-US" = true := by
  refine (is_hallucination_iff filt0 "thank you" "en-US").mpr
    ⟨rfl, Or.inr (Or.inr (Or.inl ?_))⟩
  refine ⟨fun tl => tl == "thank you".data, ?_, by decide⟩
  have step : (filt0.patternsFor (regionStrip "en-US")).getD []
      = [fun tl => tl == "thank you".data] := rfl
  rw [step]
  exact List.mem_singleton.mpr rfl

/-- C8: with authentication disabled, `verify` yields the sentinel
`{"iss": "no-auth-mode"}` payload irrespective of the oracle and of the
token, so no token inspection occurs.  With authentication enabled, a
missing (or non-Bearer) `Authorization` header and every verification
failure of the external decoder each make the handler close the connection
with the policy-violation status 1008 before any message — hence any
audio — is processed. -/
theorem auth_gate_rejects (auth : JWTAuthenticator) :
    (auth.enabled = false →
      ∀ (o₁ o₂ : String → String → Except JwtError JwtPayload) (t₁ t₂ : String),
        auth.verify o₁ t₁ = some [("iss", "no-auth-mode")] ∧
        auth.verify o₁ t₁ = auth.verify o₂ t₂) ∧
    (auth.enabled = true →
      ∀ (o : String → String → Except JwtError JwtPayload) (hdr path : String)
        (sr : Nat) (chunk : ℚ) (tr : AudioBuffer → Option String)
        (msgs : List WsMessage),
        pyStartsWith hdr "Bearer " = false →
        handle_client auth o hdr path sr chunk tr msgs
          = .rejected 1008 "Unauthorized - Missing Bearer token") ∧
    (auth.enabled = true →
      ∀ (o : String → String → Except JwtError JwtPayload) (hdr path : String)
        (sr : Nat) (chunk : ℚ) (tr : AudioBuffer → Option String)
        (msgs : List WsMessage) (e : JwtError),
        pyStartsWith hdr "Bearer " = true →
        o (pyStripS (hdr.replace "Bearer " "")) auth.audience = Except.error e →
        handle_client auth o hdr path sr chunk tr msgs
          = .rejected 1008 "Unauthorized - Invalid token") := by
  refine ⟨?_, ?_, ?_⟩
  · intro hoff o₁ o₂ t₁ t₂
    unfold JWTAuthenticator.verify
    simp [hoff]
  · intro hon o hdr path sr chunk tr msgs hhdr
    unfold handle_client
    simp [hon, hhdr]
  · intro hon o hdr path sr chunk tr msgs e hhdr herr
    unfold handle_client JWTAuthenticator.verify
    simp [hon, hhdr, herr]

/-- Witness for C8: the disabled authenticator authorizes with the sentinel
payload; the enabled one rejects a `Basic` header and rejects a bearer
token the oracle fails to verify, closing with status 1008 each time. -/
theorem auth_gate_rejects_w :
    authOff.verify oracleErr "tok" = some [("iss", "no-auth-mode")] ∧
    handle_client authOn oracleErr "Basic abc" "/streaming-whisper/ws/room" 16000
        3000 trHello [] = .rejected 1008 "Unauthorized - Missing Bearer token" ∧
    handle_client authOn oracleErr "Bearer abc" "/streaming-whisper/ws/room" 16000
        3000 trHello [] = .rejected 1008 "Unauthorized - Invalid token" :=
  ⟨((auth_gate_rejects authOff).1 rfl oracleErr oracleErr "tok" "tok").1,
   (auth_gate_rejects authOn).2.1 rfl oracleErr "Basic abc"
     "/streaming-whisper/ws/room" 16000 3000 trHello [] (by decide),
   (auth_gate_rejects authOn).2.2 rfl oracleErr "Bearer abc"
     "/streaming-whisper/ws/room" 16000 3000 trHello [] JwtError.invalidToken
     (by decide) rfl⟩

/-! Helper lemmas for the participant-id invariant (C10). -/

theorem parseAndAppend_meta_of_lt (msg : List Nat) (s : ClientState)
    (h2 : ¬ 2 ≤ (parseHeaderParts msg).length) :
    (parseAndAppend msg s).audio_buffer.client_id = s.audio_buffer.client_id ∧
    (parseAndAppend msg s).audio_buffer.language = s.audio_buffer.language := by
  constructor <;>
  · unfold parseAndAppend AudioBuffer.add_chunk
    by_cases h0 : 60 < msg.length <;> simp [h2, h0]

theorem drainStep_client_id (t : Option String) (s : ClientState) :
    (drainStep t s).1.audio_buffer.client_id = s.audio_buffer.client_id ∧
    (drainStep t s).2.participant_id = s.audio_buffer.client_id := by
  unfold drainStep AudioBuffer.clear
  split <;> simp

theorem processMessage_keeps_unset (chunk : ℚ) (tr : AudioBuffer → Option String)
    (m : WsMessage) (s : ClientState) (hm : msgSetsId m = false)
    (hid : s.audio_buffer.client_id = none) :
    (processMessage chunk tr m s).1.audio_buffer.client_id = none ∧
    ∀ r, (processMessage chunk tr m s).2 = some r → r.participant_id = none := by
  cases m with
  | text str =>
    unfold processMessage
    exact ⟨hid, fun r hr => by cases hr⟩
  | binary b =>
    have hred : processMessage chunk tr (.binary b) s
        = processBinary chunk tr b { s with message_count := s.message_count + 1 } := rfl
    rw [hred]
    unfold processBinary
    by_cases h60 : b.length < 60
    · rw [if_pos h60]
      exact ⟨hid, fun r hr => by cases hr⟩
    · rw [if_neg h60]
      have h2 : ¬ 2 ≤ (parseHeaderParts b).length := by
        unfold msgSetsId at hm
        rcases Bool.and_eq_false_iff.mp hm with hf | hf
        · exact absurd (Nat.not_lt.mp h60) (of_decide_eq_false hf)
        · exact of_decide_eq_false hf
      have hkeep := parseAndAppend_meta_of_lt b { s with message_count := s.message_count + 1 } h2
      have hid1 : (parseAndAppend b
          { s with message_count := s.message_count + 1 }).audio_buffer.client_id = none := by
        rw [hkeep.1]
        exact hid
      by_cases hc : chunk ≤ (parseAndAppend b
          { s with message_count := s.message_count + 1 }).audio_buffer.get_duration_ms
      · rw [if_pos hc]
        have hd := drainStep_client_id
          (tr (parseAndAppend b { s with message_count := s.message_count + 1 }).audio_buffer)
          (parseAndAppend b { s with message_count := s.message_count + 1 })
        refine ⟨by rw [hd.1]; exact hid1, fun r hr => ?_⟩
        have hr2 : r = (drainStep
            (tr (parseAndAppend b { s with message_count := s.message_count + 1 }).audio_buffer)
            (parseAndAppend b { s with message_count := s.message_count + 1 })).2 := by
          cases hr
          rfl
        rw [hr2, hd.2]
        exact hid1
      · rw [if_neg hc]
        exact ⟨hid1, fun r hr => by cases hr⟩

theorem processTrace_keeps_unset (chunk : ℚ) (tr : AudioBuffer → Option String) :
    ∀ (msgs : List WsMessage) (s : ClientState),
      (∀ m ∈ msgs, msgSetsId m = false) → s.audio_buffer.client_id = none →
      (processTrace chunk tr msgs s).1.audio_buffer.client_id = none ∧
      ∀ r ∈ (processTrace chunk tr msgs s).2, r.participant_id = none := by
  intro msgs
  induction msgs with
  | nil =>
    intro s _ hid
    exact ⟨hid, fun r hr => by cases hr⟩
  | cons m ms ih =>
    intro s hall hid
    have hstep := processMessage_keeps_unset chunk tr m s (hall m (by simp)) hid
    have hrest := ih (processMessage chunk tr m s).1
      (fun x hx => hall x (by simp [hx])) hstep.1
    unfold processTrace
    refine ⟨hrest.1, fun r hr => ?_⟩
    rcases List.mem_append.mp hr with hr1 | hr2
    · cases ho : (processMessage chunk tr m s).2 with
      | none =>
        rw [ho] at hr1
        cases hr1
      | some r0 =>
        rw [ho] at hr1
        rcases List.mem_singleton.mp hr1 with rfl
        exact hstep.2 _ ho
    · exact hrest.2 r hr2

/-- C10: the session's participant id starts unset (`None`) and neither
short binary frames, text frames, nor frames whose header fails to split
into two fields ever set it; hence any response emitted by a drain before a
well-formed header has been seen carries `participant_id = null`. -/
theorem participant_null_before_header (sample_rate : Nat) (chunk : ℚ)
    (tr : AudioBuffer → Option String) (msgs : List WsMessage)
    (h : ∀ m ∈ msgs, msgSetsId m = false) :
    (initState sample_rate).audio_buffer.client_id = none ∧
    ∀ r ∈ (processTrace chunk tr msgs (initState sample_rate)).2,
      r.participant_id = none :=
  ⟨rfl, (processTrace_keeps_unset chunk tr msgs (initState sample_rate) h rfl).2⟩

/-- Witness for C10: a trace of a text frame, a 59-byte frame, and a
62-byte frame without `|` in the header drains (threshold 0 ms) and the
emitted response carries a null participant id. -/
theorem participant_null_before_header_w :
    (processTrace 0 trHello msgsC10 (initState 16000)).2.all
        (fun r => r.participant_id.isNone) = true := by
  have h := participant_null_before_header 16000 0 trHello msgsC10 (by decide)
  refine List.all_eq_true.mpr (fun r hr => ?_)
  simp [h.2 r hr]

